import Mathlib

/-!
Shallow embedding of the lisafs RPC handlers (pkg/lisafs/handlers.go).

Go strings are modelled as Lean `String`, Go integers as `Nat`/`Int` with
explicit wrapping where overflow matters.  The descriptor table and the
backend capability objects live in files outside this repository slice, so
handlers receive them as oracle functions (`lk : Nat → Except Errno ControlFD`
models `c.LookupControlFD`, backend results are `Except`/`Option` arguments).
Each handler additionally records a trace of the observable operations it
performs (descriptor lookups, reference releases, backend capability calls),
in the order the Go code performs them; `defer fd.DecRef(nil)` releases run
last, in LIFO order, exactly where the Go runtime runs them.
-/

/-- Linux errno values, as plain naturals. -/
abbrev Errno := Nat

def eioErr : Errno := 5
def einval : Errno := 22
def ebadf : Errno := 9
def ebusy : Errno := 16
def eisdir : Errno := 21
def enotdir : Errno := 20
def erofs : Errno := 30
def eperm : Errno := 1

/-- unix.O_RDONLY. -/
def oRDONLY : Nat := 0
/-- unix.O_ACCMODE. -/
def oACCMODE : Nat := 3
/-- unix.O_TRUNC. -/
def oTRUNC : Nat := 512

/-- allowedOpenFlags = unix.O_ACCMODE | unix.O_TRUNC (handlers.go:34). -/
def allowedOpenFlags : Nat := oACCMODE ||| oTRUNC

/-- unix.STATX_MODE. -/
def statxMode : Nat := 2
/-- unix.STATX_UID. -/
def statxUid : Nat := 8
/-- unix.STATX_GID. -/
def statxGid : Nat := 16
/-- unix.STATX_SIZE. -/
def statxSize : Nat := 512
/-- unix.STATX_ATIME. -/
def statxAtime : Nat := 32
/-- unix.STATX_MTIME. -/
def statxMtime : Nat := 64

/-- setStatSupportedMask (handlers.go:35). -/
def setStatSupportedMask : Nat :=
  statxMode ||| statxUid ||| statxGid ||| statxSize ||| statxAtime ||| statxMtime

/-- Go bit-clear `a &^ b` on 32-bit values. -/
def andNot32 (a b : Nat) : Nat := a &&& (b ^^^ (2 ^ 32 - 1))

/-- The per-connection state touched by the modelled handlers: the read-only
flag and the mounted flag (connection.go holds more, none of it used here). -/
structure Conn where
  readonly : Bool
  mounted : Bool
  deriving DecidableEq, Repr

/-- The view of a control FD that the handlers consult: kind bit, its name
component, the path of its parent as computed by FilePathLocked (none when
`parent == nil`, i.e. a mount root) and its own FilePathLocked path. -/
structure ControlFD where
  isDir : Bool
  name : String
  parentPath : Option String
  path : String
  deriving DecidableEq, Repr

/-- The view of an open FD that the handlers consult. -/
structure OpenFD where
  readable : Bool
  writable : Bool
  controlIsDir : Bool
  deriving DecidableEq, Repr

/-- Observable operations a handler performs, in program order. -/
inductive Event where
  | lookupControl (id : Nat)
  | lookupOpen (id : Nat)
  | decRef (id : Nat)
  | bMount
  | bSetStat
  | bOpen (flags : Nat)
  | bOpenCreate (flags : Nat)
  | bWrite
  | bMkdir
  | bMknod
  | bSymlink
  | bLink
  | bAllocate
  | bUnlink
  | bRenameLocked
  | treeRewrite
  | bSetXattr
  | bRemoveXattr
  | bSync (id : Nat)
  | bGetdent (count : Nat) (seek0 : Bool)
  | bWalkStat
  deriving DecidableEq, Repr

/-- checkSafeName (handlers.go:1005-1010): a name is safe when it is
non-empty, contains no '/', and is neither "." nor "..".  `strings.Contains`
with a one-character needle is containment of that character. -/
def checkSafeName (name : String) : Option Errno :=
  if name ≠ "" ∧ name.data.contains '/' = false ∧ name ≠ "." ∧ name ≠ ".." then
    none
  else
    some einval

/-- Models `filepath.IsAbs(path.Clean(p))` from the Go standard library
(handlers.go:95-96): Clean never changes whether a path is rooted and
Clean("") = "." is not absolute, and IsAbs on Linux tests for a leading '/'. -/
def goIsAbs (p : String) : Bool :=
  match p.data with
  | [] => false
  | ch :: _ => ch == '/'

/-- MountHandler (handlers.go:89-121).  `req = none` models a payload that
fails CheckedUnmarshal; `mres` is the result of `c.ServerImpl().Mount`.
Returns the connection state after the call, the trace, and the result. -/
def MountHandler (c : Conn) (req : Option String) (mres : Except Errno Unit) :
    Conn × List Event × Except Errno Unit :=
  match req with
  | none => (c, [], .error eioErr)
  | some p =>
    if goIsAbs p = false then (c, [], .error einval)
    else if c.mounted then (c, [], .error ebusy)
    else
      match mres with
      | .error e => (c, [Event.bMount], .error e)
      | .ok _ => ({ c with mounted := true }, [Event.bMount], .ok ())

/-- SetStatReq: the fields the handler logic reads. -/
structure SetStatReq where
  fd : Nat
  mask : Nat
  deriving DecidableEq, Repr

/-- SetStatHandler (handlers.go:196-224).  `res` is the (failureMask,
failureErrno) pair produced by the backend SetStat. -/
def SetStatHandler (c : Conn) (req : Option SetStatReq)
    (lk : Nat → Except Errno ControlFD) (res : Nat × Nat) :
    List Event × Except Errno Unit :=
  if c.readonly then ([], .error erofs)
  else match req with
  | none => ([], .error eioErr)
  | some r =>
    match lk r.fd with
    | .error e => ([Event.lookupControl r.fd], .error e)
    | .ok _ =>
      if andNot32 r.mask setStatSupportedMask != 0 then
        ([Event.lookupControl r.fd, Event.decRef r.fd], .error eperm)
      else
        ([Event.lookupControl r.fd, Event.bSetStat, Event.decRef r.fd], .ok ())

/-- OpenAtReq: the fields the handler logic reads. -/
structure OpenAtReq where
  fd : Nat
  flags : Nat
  deriving DecidableEq, Repr

/-- OpenAtHandler (handlers.go:331-369).  `res` is the backend
`fd.impl.Open` result (an open FDID on success). -/
def OpenAtHandler (c : Conn) (req : Option OpenAtReq)
    (lk : Nat → Except Errno ControlFD) (res : Except Errno Nat) :
    List Event × Except Errno Nat :=
  match req with
  | none => ([], .error eioErr)
  | some r =>
    let flags := r.flags &&& allowedOpenFlags
    let accessMode := flags &&& oACCMODE
    let trunc := flags &&& oTRUNC != 0
    if c.readonly && (accessMode != oRDONLY || trunc) then ([], .error erofs)
    else
      match lk r.fd with
      | .error e => ([Event.lookupControl r.fd], .error e)
      | .ok fd =>
        if fd.isDir && (accessMode != oRDONLY || trunc) then
          ([Event.lookupControl r.fd, Event.decRef r.fd], .error eisdir)
        else
          match res with
          | .error e => ([Event.lookupControl r.fd, Event.bOpen flags, Event.decRef r.fd], .error e)
          | .ok n => ([Event.lookupControl r.fd, Event.bOpen flags, Event.decRef r.fd], .ok n)

/-- OpenCreateAtReq: the fields the handler logic reads. -/
structure OpenCreateAtReq where
  dirFD : Nat
  name : String
  flags : Nat
  deriving DecidableEq, Repr

/-- OpenCreateAtHandler (handlers.go:372-409). -/
def OpenCreateAtHandler (c : Conn) (req : Option OpenCreateAtReq)
    (lk : Nat → Except Errno ControlFD) (res : Except Errno Unit) :
    List Event × Except Errno Unit :=
  if c.readonly then ([], .error erofs)
  else match req with
  | none => ([], .error eioErr)
  | some r =>
    let flags := r.flags &&& allowedOpenFlags
    match checkSafeName r.name with
    | some e => ([], .error e)
    | none =>
      match lk r.dirFD with
      | .error e => ([Event.lookupControl r.dirFD], .error e)
      | .ok fd =>
        if fd.isDir = false then
          ([Event.lookupControl r.dirFD, Event.decRef r.dirFD], .error enotdir)
        else
          match res with
          | .error e =>
            ([Event.lookupControl r.dirFD, Event.bOpenCreate flags, Event.decRef r.dirFD], .error e)
          | .ok _ =>
            ([Event.lookupControl r.dirFD, Event.bOpenCreate flags, Event.decRef r.dirFD], .ok ())

/-- fsyncFD (handlers.go:445-451).  Note: the Go method looks up the open FD
and returns without any DecRef. -/
def fsyncFD (lk : Nat → Except Errno OpenFD) (sy : Nat → Option Errno) (id : Nat) :
    List Event × Option Errno :=
  match lk id with
  | .error e => ([Event.lookupOpen id], some e)
  | .ok _ => ([Event.lookupOpen id, Event.bSync id], sy id)

/-- The loop body of FSyncHandler (handlers.go:434-439): sync every FD,
remembering only the first error. -/
def fsyncLoop (lk : Nat → Except Errno OpenFD) (sy : Nat → Option Errno) :
    List Nat → Option Errno → List Event × Option Errno
  | [], retErr => ([], retErr)
  | id :: rest, retErr =>
    let r := fsyncFD lk sy id
    let retErr1 := match retErr, r.2 with
      | none, some e => some e
      | _, _ => retErr
    let r2 := fsyncLoop lk sy rest retErr1
    (r.1 ++ r2.1, r2.2)

/-- FSyncHandler (handlers.go:426-443). -/
def FSyncHandler (c : Conn) (req : Option (List Nat))
    (lk : Nat → Except Errno OpenFD) (sy : Nat → Option Errno) :
    List Event × Except Errno Unit :=
  match req with
  | none => ([], .error eioErr)
  | some fds =>
    let r := fsyncLoop lk sy fds none
    (r.1, match r.2 with | some e => .error e | none => .ok ())

/-- PWriteReq: the field the handler logic reads. -/
structure PWriteReq where
  fd : Nat
  deriving DecidableEq, Repr

/-- PWriteHandler (handlers.go:454-481).  Note: the Go handler looks up the
open FD and never releases it (no `defer fd.DecRef`). -/
def PWriteHandler (c : Conn) (req : Option PWriteReq)
    (lk : Nat → Except Errno OpenFD) (res : Except Errno Nat) :
    List Event × Except Errno Unit :=
  if c.readonly then ([], .error erofs)
  else match req with
  | none => ([], .error eioErr)
  | some r =>
    match lk r.fd with
    | .error e => ([Event.lookupOpen r.fd], .error e)
    | .ok fd =>
      if fd.writable = false then ([Event.lookupOpen r.fd], .error ebadf)
      else
        match res with
        | .error e => ([Event.lookupOpen r.fd, Event.bWrite], .error e)
        | .ok _ => ([Event.lookupOpen r.fd, Event.bWrite], .ok ())

/-- Request of the simple directory-based creation RPCs: a directory FDID
and a name component. -/
structure DirOpReq where
  dirFD : Nat
  name : String
  deriving DecidableEq, Repr

/-- MkdirAtHandler (handlers.go:517-547). -/
def MkdirAtHandler (c : Conn) (req : Option DirOpReq)
    (lk : Nat → Except Errno ControlFD) (res : Except Errno Unit) :
    List Event × Except Errno Unit :=
  if c.readonly then ([], .error erofs)
  else match req with
  | none => ([], .error eioErr)
  | some r =>
    match checkSafeName r.name with
    | some e => ([], .error e)
    | none =>
      match lk r.dirFD with
      | .error e => ([Event.lookupControl r.dirFD], .error e)
      | .ok fd =>
        if fd.isDir = false then
          ([Event.lookupControl r.dirFD, Event.decRef r.dirFD], .error enotdir)
        else
          match res with
          | .error e => ([Event.lookupControl r.dirFD, Event.bMkdir, Event.decRef r.dirFD], .error e)
          | .ok _ => ([Event.lookupControl r.dirFD, Event.bMkdir, Event.decRef r.dirFD], .ok ())

/-- MknodAtHandler (handlers.go:550-580). -/
def MknodAtHandler (c : Conn) (req : Option DirOpReq)
    (lk : Nat → Except Errno ControlFD) (res : Except Errno Unit) :
    List Event × Except Errno Unit :=
  if c.readonly then ([], .error erofs)
  else match req with
  | none => ([], .error eioErr)
  | some r =>
    match checkSafeName r.name with
    | some e => ([], .error e)
    | none =>
      match lk r.dirFD with
      | .error e => ([Event.lookupControl r.dirFD], .error e)
      | .ok fd =>
        if fd.isDir = false then
          ([Event.lookupControl r.dirFD, Event.decRef r.dirFD], .error enotdir)
        else
          match res with
          | .error e => ([Event.lookupControl r.dirFD, Event.bMknod, Event.decRef r.dirFD], .error e)
          | .ok _ => ([Event.lookupControl r.dirFD, Event.bMknod, Event.decRef r.dirFD], .ok ())

/-- SymlinkAtHandler (handlers.go:583-613). -/
def SymlinkAtHandler (c : Conn) (req : Option DirOpReq)
    (lk : Nat → Except Errno ControlFD) (res : Except Errno Unit) :
    List Event × Except Errno Unit :=
  if c.readonly then ([], .error erofs)
  else match req with
  | none => ([], .error eioErr)
  | some r =>
    match checkSafeName r.name with
    | some e => ([], .error e)
    | none =>
      match lk r.dirFD with
      | .error e => ([Event.lookupControl r.dirFD], .error e)
      | .ok fd =>
        if fd.isDir = false then
          ([Event.lookupControl r.dirFD, Event.decRef r.dirFD], .error enotdir)
        else
          match res with
          | .error e => ([Event.lookupControl r.dirFD, Event.bSymlink, Event.decRef r.dirFD], .error e)
          | .ok _ => ([Event.lookupControl r.dirFD, Event.bSymlink, Event.decRef r.dirFD], .ok ())

/-- LinkAtReq: the fields the handler logic reads. -/
structure LinkAtReq where
  dirFD : Nat
  target : Nat
  name : String
  deriving DecidableEq, Repr

/-- LinkAtHandler (handlers.go:616-651).  Note: only the directory FD has a
`defer fd.DecRef`; the target control FD is looked up and never released. -/
def LinkAtHandler (c : Conn) (req : Option LinkAtReq)
    (lk : Nat → Except Errno ControlFD) (res : Except Errno Unit) :
    List Event × Except Errno Unit :=
  if c.readonly then ([], .error erofs)
  else match req with
  | none => ([], .error eioErr)
  | some r =>
    match checkSafeName r.name with
    | some e => ([], .error e)
    | none =>
      match lk r.dirFD with
      | .error e => ([Event.lookupControl r.dirFD], .error e)
      | .ok fd =>
        if fd.isDir = false then
          ([Event.lookupControl r.dirFD, Event.decRef r.dirFD], .error enotdir)
        else
          match lk r.target with
          | .error e =>
            ([Event.lookupControl r.dirFD, Event.lookupControl r.target,
              Event.decRef r.dirFD], .error e)
          | .ok _ =>
            match res with
            | .error e =>
              ([Event.lookupControl r.dirFD, Event.lookupControl r.target, Event.bLink,
                Event.decRef r.dirFD], .error e)
            | .ok _ =>
              ([Event.lookupControl r.dirFD, Event.lookupControl r.target, Event.bLink,
                Event.decRef r.dirFD], .ok ())

/-- FAllocateReq: the field the handler logic reads. -/
structure FAllocateReq where
  fd : Nat
  deriving DecidableEq, Repr

/-- FAllocateHandler (handlers.go:676-694). -/
def FAllocateHandler (c : Conn) (req : Option FAllocateReq)
    (lk : Nat → Except Errno OpenFD) (res : Option Errno) :
    List Event × Except Errno Unit :=
  if c.readonly then ([], .error erofs)
  else match req with
  | none => ([], .error eioErr)
  | some r =>
    match lk r.fd with
    | .error e => ([Event.lookupOpen r.fd], .error e)
    | .ok fd =>
      if fd.writable = false then
        ([Event.lookupOpen r.fd, Event.decRef r.fd], .error ebadf)
      else
        match res with
        | some e => ([Event.lookupOpen r.fd, Event.bAllocate, Event.decRef r.fd], .error e)
        | none => ([Event.lookupOpen r.fd, Event.bAllocate, Event.decRef r.fd], .ok ())

/-- UnlinkAtHandler (handlers.go:763-786). -/
def UnlinkAtHandler (c : Conn) (req : Option DirOpReq)
    (lk : Nat → Except Errno ControlFD) (res : Option Errno) :
    List Event × Except Errno Unit :=
  if c.readonly then ([], .error erofs)
  else match req with
  | none => ([], .error eioErr)
  | some r =>
    match checkSafeName r.name with
    | some e => ([], .error e)
    | none =>
      match lk r.dirFD with
      | .error e => ([Event.lookupControl r.dirFD], .error e)
      | .ok fd =>
        if fd.isDir = false then
          ([Event.lookupControl r.dirFD, Event.decRef r.dirFD], .error enotdir)
        else
          match res with
          | some e => ([Event.lookupControl r.dirFD, Event.bUnlink, Event.decRef r.dirFD], .error e)
          | none => ([Event.lookupControl r.dirFD, Event.bUnlink, Event.decRef r.dirFD], .ok ())

/-- RenameAtReq: the fields the handler logic reads. -/
structure RenameAtReq where
  renamed : Nat
  newDir : Nat
  newName : String
  deriving DecidableEq, Repr

/-- RenameAtHandler (handlers.go:789-851).  `rres` is the backend
RenameLocked result; the `treeRewrite` event stands for the
forEachMountPoint subtree rewrite plus the cleanup callback, which run only
after a successful backend rename. -/
def RenameAtHandler (c : Conn) (req : Option RenameAtReq)
    (lk : Nat → Except Errno ControlFD) (rres : Except Errno Unit) :
    List Event × Except Errno Unit :=
  if c.readonly then ([], .error erofs)
  else match req with
  | none => ([], .error eioErr)
  | some r =>
    match checkSafeName r.newName with
    | some e => ([], .error e)
    | none =>
      match lk r.renamed with
      | .error e => ([Event.lookupControl r.renamed], .error e)
      | .ok renamed =>
        match lk r.newDir with
        | .error e =>
          ([Event.lookupControl r.renamed, Event.lookupControl r.newDir,
            Event.decRef r.renamed], .error e)
        | .ok newDir =>
          if newDir.isDir = false then
            ([Event.lookupControl r.renamed, Event.lookupControl r.newDir,
              Event.decRef r.newDir, Event.decRef r.renamed], .error enotdir)
          else
            match renamed.parentPath with
            | none =>
              ([Event.lookupControl r.renamed, Event.lookupControl r.newDir,
                Event.decRef r.newDir, Event.decRef r.renamed], .error ebusy)
            | some oldParentPath =>
              if r.newName = renamed.name ∧ oldParentPath = newDir.path then
                ([Event.lookupControl r.renamed, Event.lookupControl r.newDir,
                  Event.decRef r.newDir, Event.decRef r.renamed], .ok ())
              else
                match rres with
                | .error e =>
                  ([Event.lookupControl r.renamed, Event.lookupControl r.newDir,
                    Event.bRenameLocked, Event.decRef r.newDir, Event.decRef r.renamed], .error e)
                | .ok _ =>
                  ([Event.lookupControl r.renamed, Event.lookupControl r.newDir,
                    Event.bRenameLocked, Event.treeRewrite,
                    Event.decRef r.newDir, Event.decRef r.renamed], .ok ())

/-- XattrReq: the field of FSetXattrReq / FRemoveXattrReq that the handler
logic reads. -/
structure XattrReq where
  fd : Nat
  deriving DecidableEq, Repr

/-- FSetXattrHandler (handlers.go:954-969). -/
def FSetXattrHandler (c : Conn) (req : Option XattrReq)
    (lk : Nat → Except Errno ControlFD) (res : Option Errno) :
    List Event × Except Errno Unit :=
  if c.readonly then ([], .error erofs)
  else match req with
  | none => ([], .error eioErr)
  | some r =>
    match lk r.fd with
    | .error e => ([Event.lookupControl r.fd], .error e)
    | .ok _ =>
      match res with
      | some e => ([Event.lookupControl r.fd, Event.bSetXattr, Event.decRef r.fd], .error e)
      | none => ([Event.lookupControl r.fd, Event.bSetXattr, Event.decRef r.fd], .ok ())

/-- FRemoveXattrHandler (handlers.go:987-1002). -/
def FRemoveXattrHandler (c : Conn) (req : Option XattrReq)
    (lk : Nat → Except Errno ControlFD) (res : Option Errno) :
    List Event × Except Errno Unit :=
  if c.readonly then ([], .error erofs)
  else match req with
  | none => ([], .error eioErr)
  | some r =>
    match lk r.fd with
    | .error e => ([Event.lookupControl r.fd], .error e)
    | .ok _ =>
      match res with
      | some e => ([Event.lookupControl r.fd, Event.bRemoveXattr, Event.decRef r.fd], .error e)
      | none => ([Event.lookupControl r.fd, Event.bRemoveXattr, Event.decRef r.fd], .ok ())

/-- The name-validation loop of WalkStatHandler after its first component
(handlers.go:296-304 body for indices ≥ 1): fail with the first unsafe
name. -/
def checkSafeNames : List String → Option Errno
  | [] => none
  | n :: rest =>
    match checkSafeName n with
    | some e => some e
    | none => checkSafeNames rest

/-- The full name-validation loop of WalkStatHandler (handlers.go:296-304):
the first component may be empty (self-walk); every other component must be
safe. -/
def walkStatNameCheck : List String → Option Errno
  | [] => none
  | n :: rest =>
    if n = "" then checkSafeNames rest
    else
      match checkSafeName n with
      | some e => some e
      | none => checkSafeNames rest

/-- WalkStatHandler (handlers.go:277-328).  `werr` is the result of the
backend `fd.impl.WalkStat`. -/
def WalkStatHandler (c : Conn) (req : Option (Nat × List String))
    (lk : Nat → Except Errno ControlFD) (werr : Option Errno) :
    List Event × Except Errno Unit :=
  match req with
  | none => ([], .error eioErr)
  | some (dirFD, path) =>
    match lk dirFD with
    | .error e => ([Event.lookupControl dirFD], .error e)
    | .ok fd =>
      if fd.isDir = false ∧
          (path.length > 1 ∨ (path.length = 1 ∧ (path.headD "").length > 0)) then
        ([Event.lookupControl dirFD, Event.decRef dirFD], .error enotdir)
      else
        match walkStatNameCheck path with
        | some e => ([Event.lookupControl dirFD, Event.decRef dirFD], .error e)
        | none =>
          match werr with
          | some e =>
            ([Event.lookupControl dirFD, Event.bWalkStat, Event.decRef dirFD], .error e)
          | none =>
            ([Event.lookupControl dirFD, Event.bWalkStat, Event.decRef dirFD], .ok ())

/-- Two-complement negation of a Go int32 held as an integer:
`-n` computed with wraparound in 32 bits. -/
def int32Neg (n : Int) : Int := (-n + 2 ^ 31) % 2 ^ 32 - 2 ^ 31

/-- Go conversion `uint32(n)` of an int32 value, as a natural. -/
def toUInt32Nat (n : Int) : Nat := (n % 2 ^ 32).toNat

/-- Getdents64Handler (handlers.go:877-924).  The request count is an int32;
`gerr` is the result of the backend `fd.impl.Getdent64`, which the Go code
calls with `uint32(req.Count)` and the seek-to-zero flag. -/
def Getdents64Handler (c : Conn) (req : Option (Nat × Int))
    (lk : Nat → Except Errno OpenFD) (gerr : Option Errno) :
    List Event × Except Errno Unit :=
  match req with
  | none => ([], .error eioErr)
  | some (dirFD, count0) =>
    match lk dirFD with
    | .error e => ([Event.lookupOpen dirFD], .error e)
    | .ok fd =>
      if fd.controlIsDir = false then
        ([Event.lookupOpen dirFD, Event.decRef dirFD], .error enotdir)
      else
        let seek0 := decide (count0 < 0)
        let count := if count0 < 0 then int32Neg count0 else count0
        match gerr with
        | some e =>
          ([Event.lookupOpen dirFD, Event.bGetdent (toUInt32Nat count) seek0,
            Event.decRef dirFD], .error e)
        | none =>
          ([Event.lookupOpen dirFD, Event.bGetdent (toUInt32Nat count) seek0,
            Event.decRef dirFD], .ok ())

/-! ## Concrete oracles used by witnesses and counterexamples -/

/-- A lookup oracle in which every open FDID resolves to a readable,
writable open FD whose control FD is a directory. -/
def lkOpenAll : Nat → Except Errno OpenFD := fun _ => .ok ⟨true, true, true⟩

/-- A lookup oracle in which every control FDID resolves to a directory. -/
def lkCtlDir : Nat → Except Errno ControlFD := fun _ => .ok ⟨true, "d", some "/", "/d"⟩

/-- A lookup oracle in which every control FDID resolves to a regular
(non-directory) file. -/
def lkCtlFile : Nat → Except Errno ControlFD := fun _ => .ok ⟨false, "f", some "/", "/f"⟩

/-- A lookup oracle that fails every control lookup. -/
def lkCtlErr : Nat → Except Errno ControlFD := fun _ => .error ebadf

/-- A lookup oracle that fails every open lookup. -/
def lkOpenErr : Nat → Except Errno OpenFD := fun _ => .error ebadf

/-- A sync oracle in which exactly FD 2 fails with an input/output error. -/
def syMid : Nat → Option Errno := fun id => if id == 2 then some eioErr else none

/-- A sync oracle in which every sync succeeds. -/
def syAllOK : Nat → Option Errno := fun _ => none

/-! ## Claims -/

/-- C5: checkSafeName returns the invalid-argument error exactly when the
name is empty, ".", "..", or contains '/'; every other name, including
"...", ".hidden" and non-ASCII unicode names, is accepted. -/
theorem checkSafeName_spec :
    (∀ name : String, checkSafeName name = some einval ↔
      (name = "" ∨ name = "." ∨ name = ".." ∨ name.data.contains '/' = true)) ∧
    checkSafeName "..." = none ∧ checkSafeName ".hidden" = none ∧
    checkSafeName "árbol" = none := by
  refine ⟨fun name => ?_, by decide, by decide, by decide⟩
  unfold checkSafeName
  split
  · next h =>
    obtain ⟨h1, hc, h3, h4⟩ := h
    simp [h1, h3, h4]
    simpa using hc
  · next h =>
    refine iff_of_true rfl ?_
    by_cases h1 : name = ""
    · exact Or.inl h1
    by_cases h2 : name = "."
    · exact Or.inr (Or.inl h2)
    by_cases h3 : name = ".."
    · exact Or.inr (Or.inr (Or.inl h3))
    refine Or.inr (Or.inr (Or.inr ?_))
    cases hc : name.data.contains '/' with
    | true => rfl
    | false => exact absurd ⟨h1, hc, h2, h3⟩ h

/-- C4: the mounted flag transitions false→true exactly once: with a
well-formed absolute mount path, a connection that is already mounted gets
the busy error with no backend Mount call and an unchanged state; an
unmounted connection stays unmounted when the backend fails, and the first
successful Mount sets the flag. -/
theorem mount_mounted_once (c : Conn) (p : String) (mres : Except Errno Unit)
    (habs : goIsAbs p = true) :
    (c.mounted = true → MountHandler c (some p) mres = (c, [], Except.error ebusy)) ∧
    (c.mounted = false → ∀ e, mres = Except.error e →
      MountHandler c (some p) mres = (c, [Event.bMount], Except.error e)) ∧
    (c.mounted = false → mres = Except.ok () →
      MountHandler c (some p) mres =
        ({ c with mounted := true }, [Event.bMount], Except.ok ())) := by
  refine ⟨fun hm => ?_, fun hm e he => ?_, fun hm hok => ?_⟩
  · simp [MountHandler, habs, hm]
  · subst he; simp [MountHandler, habs, hm]
  · subst hok; simp [MountHandler, habs, hm]

/-- C4 witness: a second Mount with path "/srv" on a mounted connection is
rejected with the busy error, no backend call, state unchanged. -/
theorem mount_mounted_once_witness :
    MountHandler ⟨false, true⟩ (some "/srv") (Except.ok ()) =
      (⟨false, true⟩, [], Except.error ebusy) :=
  (mount_mounted_once ⟨false, true⟩ "/srv" (Except.ok ()) (by decide)).1 rfl

/-- C1: on a connection whose read-only flag is set, every mutating RPC
handler (SetStat, OpenCreateAt, PWrite, MkdirAt, MknodAt, SymlinkAt, LinkAt,
FAllocate, UnlinkAt, RenameAt, FSetXattr, FRemoveXattr) returns the
read-only-filesystem error with an empty trace — so before decoding the
request (the result is the same even when unmarshalling would fail,
`req = none`), with no descriptor lookup and no backend capability call. -/
theorem readonly_rejects_mutating (c : Conn) (h : c.readonly = true) :
    (∀ req lk res, SetStatHandler c req lk res = ([], Except.error erofs)) ∧
    (∀ req lk res, OpenCreateAtHandler c req lk res = ([], Except.error erofs)) ∧
    (∀ req lk res, PWriteHandler c req lk res = ([], Except.error erofs)) ∧
    (∀ req lk res, MkdirAtHandler c req lk res = ([], Except.error erofs)) ∧
    (∀ req lk res, MknodAtHandler c req lk res = ([], Except.error erofs)) ∧
    (∀ req lk res, SymlinkAtHandler c req lk res = ([], Except.error erofs)) ∧
    (∀ req lk res, LinkAtHandler c req lk res = ([], Except.error erofs)) ∧
    (∀ req lk res, FAllocateHandler c req lk res = ([], Except.error erofs)) ∧
    (∀ req lk res, UnlinkAtHandler c req lk res = ([], Except.error erofs)) ∧
    (∀ req lk res, RenameAtHandler c req lk res = ([], Except.error erofs)) ∧
    (∀ req lk res, FSetXattrHandler c req lk res = ([], Except.error erofs)) ∧
    (∀ req lk res, FRemoveXattrHandler c req lk res = ([], Except.error erofs)) := by
  refine ⟨?_, ?_, ?_, ?_, ?_, ?_, ?_, ?_, ?_, ?_, ?_, ?_⟩ <;> intro req lk res <;>
    simp [SetStatHandler, OpenCreateAtHandler, PWriteHandler, MkdirAtHandler,
      MknodAtHandler, SymlinkAtHandler, LinkAtHandler, FAllocateHandler,
      UnlinkAtHandler, RenameAtHandler, FSetXattrHandler, FRemoveXattrHandler, h]

/-- C1 witness: on a concrete read-only connection, each of the twelve
mutating handlers returns the read-only error with an empty trace, even on
an undecodable payload. -/
theorem readonly_rejects_mutating_witness :
    SetStatHandler ⟨true, true⟩ none lkCtlErr (0, 0) = ([], Except.error erofs) ∧
    OpenCreateAtHandler ⟨true, true⟩ none lkCtlErr (Except.ok ()) = ([], Except.error erofs) ∧
    PWriteHandler ⟨true, true⟩ none lkOpenErr (Except.ok 0) = ([], Except.error erofs) ∧
    MkdirAtHandler ⟨true, true⟩ none lkCtlErr (Except.ok ()) = ([], Except.error erofs) ∧
    MknodAtHandler ⟨true, true⟩ none lkCtlErr (Except.ok ()) = ([], Except.error erofs) ∧
    SymlinkAtHandler ⟨true, true⟩ none lkCtlErr (Except.ok ()) = ([], Except.error erofs) ∧
    LinkAtHandler ⟨true, true⟩ none lkCtlErr (Except.ok ()) = ([], Except.error erofs) ∧
    FAllocateHandler ⟨true, true⟩ none lkOpenErr none = ([], Except.error erofs) ∧
    UnlinkAtHandler ⟨true, true⟩ none lkCtlErr none = ([], Except.error erofs) ∧
    RenameAtHandler ⟨true, true⟩ none lkCtlErr (Except.ok ()) = ([], Except.error erofs) ∧
    FSetXattrHandler ⟨true, true⟩ none lkCtlErr none = ([], Except.error erofs) ∧
    FRemoveXattrHandler ⟨true, true⟩ none lkCtlErr none = ([], Except.error erofs) := by
  have h := readonly_rejects_mutating ⟨true, true⟩ rfl
  exact ⟨h.1 _ _ _, h.2.1 _ _ _, h.2.2.1 _ _ _, h.2.2.2.1 _ _ _, h.2.2.2.2.1 _ _ _,
    h.2.2.2.2.2.1 _ _ _, h.2.2.2.2.2.2.1 _ _ _, h.2.2.2.2.2.2.2.1 _ _ _,
    h.2.2.2.2.2.2.2.2.1 _ _ _, h.2.2.2.2.2.2.2.2.2.1 _ _ _,
    h.2.2.2.2.2.2.2.2.2.2.1 _ _ _, h.2.2.2.2.2.2.2.2.2.2.2 _ _ _⟩

/-- C2: the pairing of descriptor lookups with reference releases fails on
the code at the three places the claim singles out.  Evaluated at concrete
successful inputs: FSync's per-FD helper looks up the open FD and returns
with no release; PWrite looks up the open FD and returns with no release;
LinkAt looks up both the directory and the target control FDs but releases
only the directory (one decRef for two lookups). -/
theorem lookup_release_missing :
    (FSyncHandler ⟨false, true⟩ (some [1]) lkOpenAll syAllOK).1 =
      [Event.lookupOpen 1, Event.bSync 1] ∧
    (PWriteHandler ⟨false, true⟩ (some ⟨1⟩) lkOpenAll (Except.ok 0)).1 =
      [Event.lookupOpen 1, Event.bWrite] ∧
    (LinkAtHandler ⟨false, true⟩ (some ⟨1, 2, "n"⟩) lkCtlDir (Except.ok ())).1 =
      [Event.lookupControl 1, Event.lookupControl 2, Event.bLink, Event.decRef 1] :=
  ⟨rfl, rfl, rfl⟩

/-- C3: RenameAt, once it has passed decode, name validation, both lookups
and the directory check (the section the Go code runs under the write-locked
rename mutex): a renamed handle with a null parent fails busy without a
backend RenameLocked call and without a tree rewrite; and when the new name
equals the current name and the new parent's path equals the current
parent's path, it succeeds, also without a backend RenameLocked call and
without a tree rewrite.  In both cases the trace holds exactly the two
lookups and their two releases. -/
theorem renameAt_locked_section (c : Conn) (r : RenameAtReq)
    (lk : Nat → Except Errno ControlFD) (rres : Except Errno Unit)
    (renamed newDir : ControlFD)
    (hro : c.readonly = false) (hname : checkSafeName r.newName = none)
    (h1 : lk r.renamed = Except.ok renamed) (h2 : lk r.newDir = Except.ok newDir)
    (hdir : newDir.isDir = true) :
    (renamed.parentPath = none →
      RenameAtHandler c (some r) lk rres =
        ([Event.lookupControl r.renamed, Event.lookupControl r.newDir,
          Event.decRef r.newDir, Event.decRef r.renamed], Except.error ebusy)) ∧
    (∀ opp, renamed.parentPath = some opp →
      r.newName = renamed.name → opp = newDir.path →
      RenameAtHandler c (some r) lk rres =
        ([Event.lookupControl r.renamed, Event.lookupControl r.newDir,
          Event.decRef r.newDir, Event.decRef r.renamed], Except.ok ())) := by
  constructor
  · intro hp
    simp [RenameAtHandler, hro, hname, h1, h2, hdir, hp]
  · intro opp hp hn hpp
    rw [hn] at hname
    simp [RenameAtHandler, hro, hname, h1, h2, hdir, hp, hn, hpp]

/-- A lookup oracle for the C3 witness: FDID 1 is a file named "x" under
parent path "/a", FDID 2 is the directory "/a", FDID 3 is a mount root
(null parent). -/
def lkRenameW : Nat → Except Errno ControlFD := fun id =>
  if id == 1 then .ok ⟨false, "x", some "/a", "/a/x"⟩
  else if id == 3 then .ok ⟨true, "r", none, "/r"⟩
  else .ok ⟨true, "a", some "/", "/a"⟩

/-- C3 witness: renaming the mount root (FDID 3) into "/a" fails busy, and
renaming "/a/x" to the identical name and parent succeeds; in both cases
the trace shows no backend RenameLocked and no tree rewrite. -/
theorem renameAt_locked_section_witness :
    RenameAtHandler ⟨false, true⟩ (some ⟨3, 2, "y"⟩) lkRenameW (Except.ok ()) =
      ([Event.lookupControl 3, Event.lookupControl 2,
        Event.decRef 2, Event.decRef 3], Except.error ebusy) ∧
    RenameAtHandler ⟨false, true⟩ (some ⟨1, 2, "x"⟩) lkRenameW (Except.ok ()) =
      ([Event.lookupControl 1, Event.lookupControl 2,
        Event.decRef 2, Event.decRef 1], Except.ok ()) :=
  ⟨(renameAt_locked_section ⟨false, true⟩ ⟨3, 2, "y"⟩ lkRenameW (Except.ok ())
      ⟨true, "r", none, "/r"⟩ ⟨true, "a", some "/", "/a"⟩
      rfl (by decide) rfl rfl rfl).1 rfl,
   (renameAt_locked_section ⟨false, true⟩ ⟨1, 2, "x"⟩ lkRenameW (Except.ok ())
      ⟨false, "x", some "/a", "/a/x"⟩ ⟨true, "a", some "/", "/a"⟩
      rfl (by decide) rfl rfl rfl).2 "/a" rfl rfl rfl⟩

/-- Masking with a constant is idempotent. -/
theorem mask_idem (x a : Nat) : (x &&& a) &&& a = x &&& a := by
  apply Nat.eq_of_testBit_eq
  intro i
  cases hx : x.testBit i <;> cases ha : a.testBit i <;>
    simp [Nat.testBit_and, hx, ha]

/-- C6: OpenAt first reduces the requested flags to the allowed subset
(access mode plus truncate) — its behaviour on any request equals its
behaviour on the pre-masked request, and any backend Open call receives the
masked flags — and when the looked-up control FD is a directory the request
fails is-a-directory unless the masked access mode is read-only and the
masked truncate bit is absent, in which case the backend Open is reached. -/
theorem openAt_mask_and_isdir (c : Conn) (r : OpenAtReq)
    (lk : Nat → Except Errno ControlFD) (res : Except Errno Nat) (fd : ControlFD)
    (hro : c.readonly = false) (hlk : lk r.fd = Except.ok fd) :
    OpenAtHandler c (some r) lk res =
      OpenAtHandler c (some ⟨r.fd, r.flags &&& allowedOpenFlags⟩) lk res ∧
    (∀ f, Event.bOpen f ∈ (OpenAtHandler c (some r) lk res).1 →
      f = r.flags &&& allowedOpenFlags) ∧
    (fd.isDir = true →
      (((r.flags &&& allowedOpenFlags) &&& oACCMODE != oRDONLY ||
        (r.flags &&& allowedOpenFlags) &&& oTRUNC != 0) = true →
        (OpenAtHandler c (some r) lk res).2 = Except.error eisdir) ∧
      (((r.flags &&& allowedOpenFlags) &&& oACCMODE != oRDONLY ||
        (r.flags &&& allowedOpenFlags) &&& oTRUNC != 0) = false →
        Event.bOpen (r.flags &&& allowedOpenFlags) ∈
          (OpenAtHandler c (some r) lk res).1)) := by
  refine ⟨?_, ?_, fun hd => ⟨fun hc => ?_, fun hc => ?_⟩⟩
  · simp [OpenAtHandler, mask_idem]
  · intro f hf
    cases hd : fd.isDir <;>
      cases hc : ((r.flags &&& allowedOpenFlags) &&& oACCMODE != oRDONLY ||
        (r.flags &&& allowedOpenFlags) &&& oTRUNC != 0) <;>
      rcases res with e | n <;>
      simp [OpenAtHandler, hro, hlk, hd, hc] at hf <;>
      simp [hf]
  · simp [OpenAtHandler, hro, hlk, hd, hc]
  · rcases res with e | n <;> simp [OpenAtHandler, hro, hlk, hd, hc]

/-- C6 witness: flags 0x4203 (write access, truncate, plus disallowed bits)
on a directory FD are masked to write-plus-truncate and rejected
is-a-directory; flags 0x4000 on the same FD mask to read-only and reach the
backend Open with flags 0. -/
theorem openAt_mask_and_isdir_witness :
    (OpenAtHandler ⟨false, true⟩ (some ⟨1, 16899⟩) lkCtlDir (Except.ok 7)).2 =
      Except.error eisdir ∧
    Event.bOpen 0 ∈ (OpenAtHandler ⟨false, true⟩ (some ⟨1, 16384⟩) lkCtlDir (Except.ok 7)).1 := by
  have h1 := openAt_mask_and_isdir ⟨false, true⟩ ⟨1, 16899⟩ lkCtlDir (Except.ok 7)
    ⟨true, "d", some "/", "/d"⟩ rfl rfl
  have h2 := openAt_mask_and_isdir ⟨false, true⟩ ⟨1, 16384⟩ lkCtlDir (Except.ok 7)
    ⟨true, "d", some "/", "/d"⟩ rfl rfl
  exact ⟨(h1.2.2 rfl).1 (by decide), by
    have := (h2.2.2 rfl).2 (by decide)
    simpa using this⟩

/-- C10: on a read-only connection, OpenAt is rejected with the read-only
error — with an empty trace, before any lookup — exactly when the masked
access mode is not read-only or the masked truncate bit is set; when the
masked flags are read-only without truncate, the handler proceeds to the
control-FD lookup even if the original request had extra (masked-off)
bits. -/
theorem openAt_readonly_gate (c : Conn) (r : OpenAtReq)
    (lk : Nat → Except Errno ControlFD) (res : Except Errno Nat)
    (hro : c.readonly = true) :
    (OpenAtHandler c (some r) lk res = ([], Except.error erofs) ↔
      ((r.flags &&& allowedOpenFlags) &&& oACCMODE != oRDONLY ||
       (r.flags &&& allowedOpenFlags) &&& oTRUNC != 0) = true) ∧
    (((r.flags &&& allowedOpenFlags) &&& oACCMODE != oRDONLY ||
      (r.flags &&& allowedOpenFlags) &&& oTRUNC != 0) = false →
      Event.lookupControl r.fd ∈ (OpenAtHandler c (some r) lk res).1) := by
  cases hc : ((r.flags &&& allowedOpenFlags) &&& oACCMODE != oRDONLY ||
      (r.flags &&& allowedOpenFlags) &&& oTRUNC != 0)
  · refine ⟨⟨fun heq => ?_, fun h => absurd h (by decide)⟩, fun _ => ?_⟩
    · exfalso
      rcases hlk : lk r.fd with e | fd
      · rcases res with e2 | n <;> simp [OpenAtHandler, hro, hc, hlk] at heq
      · rcases res with e2 | n <;> cases hd : fd.isDir <;>
          simp [OpenAtHandler, hro, hc, hlk, hd] at heq
    · rcases hlk : lk r.fd with e | fd
      · rcases res with e2 | n <;> simp [OpenAtHandler, hro, hc, hlk]
      · rcases res with e2 | n <;> cases hd : fd.isDir <;>
          simp [OpenAtHandler, hro, hc, hlk, hd]
  · exact ⟨⟨fun _ => rfl, fun _ => by simp [OpenAtHandler, hro, hc]⟩,
      fun h => absurd h (by decide)⟩

/-- C10 witness: with read-only set, a request with write access (flags 1)
is rejected with the read-only error and empty trace, while flags 0x4000
(read-only after masking) proceeds to the lookup. -/
theorem openAt_readonly_gate_witness :
    OpenAtHandler ⟨true, true⟩ (some ⟨1, 1⟩) lkCtlDir (Except.ok 7) =
      ([], Except.error erofs) ∧
    Event.lookupControl 1 ∈
      (OpenAtHandler ⟨true, true⟩ (some ⟨1, 16384⟩) lkCtlDir (Except.ok 7)).1 :=
  ⟨(openAt_readonly_gate ⟨true, true⟩ ⟨1, 1⟩ lkCtlDir (Except.ok 7) rfl).1.mpr (by decide),
   (openAt_readonly_gate ⟨true, true⟩ ⟨1, 16384⟩ lkCtlDir (Except.ok 7) rfl).2 (by decide)⟩

/-- In the FSync loop, every FD whose lookup succeeds gets a backend Sync
call, whatever the already-accumulated error is. -/
theorem fsyncLoop_sync_all (lk : Nat → Except Errno OpenFD) (sy : Nat → Option Errno) :
    ∀ (fds : List Nat) (r0 : Option Errno),
      (∀ id ∈ fds, ∃ fd, lk id = Except.ok fd) →
      ∀ id ∈ fds, Event.bSync id ∈ (fsyncLoop lk sy fds r0).1 := by
  intro fds
  induction fds with
  | nil => intro r0 h id hid; cases hid
  | cons a rest ih =>
    intro r0 h id hid
    obtain ⟨fd, hfd⟩ := h a (List.mem_cons_self a rest)
    have hrest : ∀ j ∈ rest, ∃ fd, lk j = Except.ok fd :=
      fun j hj => h j (List.mem_cons_of_mem a hj)
    rcases List.mem_cons.mp hid with rfl | hmem
    · simp only [fsyncLoop, List.mem_append]
      exact Or.inl (by simp [fsyncFD, hfd])
    · simp only [fsyncLoop, List.mem_append]
      exact Or.inr (ih _ hrest id hmem)

/-- The FSync loop keeps the first error: with all lookups succeeding, its
accumulated result is the already-recorded error if any, otherwise the
first sync error in list order. -/
theorem fsyncLoop_first_error (lk : Nat → Except Errno OpenFD) (sy : Nat → Option Errno) :
    ∀ (fds : List Nat) (r0 : Option Errno),
      (∀ id ∈ fds, ∃ fd, lk id = Except.ok fd) →
      (fsyncLoop lk sy fds r0).2 =
        (match r0 with
         | some e => some e
         | none => List.findSome? sy fds) := by
  intro fds
  induction fds with
  | nil => intro r0 h; cases r0 <;> simp [fsyncLoop]
  | cons a rest ih =>
    intro r0 h
    obtain ⟨fd, hfd⟩ := h a (List.mem_cons_self a rest)
    have hrest : ∀ j ∈ rest, ∃ fd, lk j = Except.ok fd :=
      fun j hj => h j (List.mem_cons_of_mem a hj)
    simp only [fsyncLoop, fsyncFD, hfd]
    cases r0 with
    | some e => simpa using ih _ hrest
    | none =>
      cases hsy : sy a with
      | some e => simp [ih _ hrest, List.findSome?_cons, hsy]
      | none => simp [ih _ hrest, List.findSome?_cons, hsy]

/-- C7: when every per-FD lookup succeeds, FSync invokes the backend Sync
on every FD in the request list — also after a failure — and returns the
error of the first FD whose sync failed, or success when none did. -/
theorem fsync_all_first_error (c : Conn) (fds : List Nat)
    (lk : Nat → Except Errno OpenFD) (sy : Nat → Option Errno)
    (hlk : ∀ id ∈ fds, ∃ fd, lk id = Except.ok fd) :
    (∀ id ∈ fds, Event.bSync id ∈ (FSyncHandler c (some fds) lk sy).1) ∧
    (FSyncHandler c (some fds) lk sy).2 =
      (match List.findSome? sy fds with
       | some e => Except.error e
       | none => Except.ok ()) := by
  constructor
  · intro id hid
    simpa [FSyncHandler] using fsyncLoop_sync_all lk sy fds none hlk id hid
  · simp [FSyncHandler, fsyncLoop_first_error lk sy fds none hlk]

/-- C7 witness: syncing the three FDs 1, 2, 3 where only FD 2 fails with an
input/output error invokes the backend Sync on all three and returns that
error. -/
theorem fsync_all_first_error_witness :
    (Event.bSync 1 ∈ (FSyncHandler ⟨false, true⟩ (some [1, 2, 3]) lkOpenAll syMid).1 ∧
     Event.bSync 2 ∈ (FSyncHandler ⟨false, true⟩ (some [1, 2, 3]) lkOpenAll syMid).1 ∧
     Event.bSync 3 ∈ (FSyncHandler ⟨false, true⟩ (some [1, 2, 3]) lkOpenAll syMid).1) ∧
    (FSyncHandler ⟨false, true⟩ (some [1, 2, 3]) lkOpenAll syMid).2 = Except.error eioErr := by
  have h := fsync_all_first_error ⟨false, true⟩ [1, 2, 3] lkOpenAll syMid
    (fun id _ => ⟨⟨true, true, true⟩, rfl⟩)
  exact ⟨⟨h.1 1 (by simp), h.1 2 (by simp), h.1 3 (by simp)⟩, h.2.trans rfl⟩

/-- C8: WalkStat on a control FD that is not a directory reaches the
backend WalkStat exactly when the request path is empty or is the single
component ""; any other path on a non-directory FD fails not-a-directory. -/
theorem walkStat_nondir_self (c : Conn) (dirFD : Nat) (path : List String)
    (lk : Nat → Except Errno ControlFD) (werr : Option Errno) (fd : ControlFD)
    (hlk : lk dirFD = Except.ok fd) (hnd : fd.isDir = false) :
    (Event.bWalkStat ∈ (WalkStatHandler c (some (dirFD, path)) lk werr).1 ↔
      path = [] ∨ path = [""]) ∧
    (¬(path = [] ∨ path = [""]) →
      (WalkStatHandler c (some (dirFD, path)) lk werr).2 = Except.error enotdir) := by
  rcases path with _ | ⟨a, rest⟩
  · refine ⟨⟨fun _ => Or.inl rfl, fun _ => ?_⟩, fun h => absurd (Or.inl rfl) h⟩
    cases werr <;> simp [WalkStatHandler, hlk, hnd, walkStatNameCheck]
  · rcases rest with _ | ⟨b, t⟩
    · by_cases ha : a = ""
      · subst ha
        refine ⟨⟨fun _ => Or.inr rfl, fun _ => ?_⟩, fun h => absurd (Or.inr rfl) h⟩
        cases werr <;>
          simp [WalkStatHandler, hlk, hnd, walkStatNameCheck, checkSafeNames]
      · have hlen : 0 < a.length := by
          rcases a with ⟨l⟩
          cases l with
          | nil => exact absurd (by decide) ha
          | cons x xs => simp [String.length]
        constructor
        · constructor
          · intro hmem
            exfalso
            simp [WalkStatHandler, hlk, hnd, hlen] at hmem
          · intro h
            rcases h with h | h
            · cases h
            · exact absurd (by injection h) ha
        · intro _
          simp [WalkStatHandler, hlk, hnd, hlen]
    · constructor
      · constructor
        · intro hmem
          exfalso
          simp [WalkStatHandler, hlk, hnd] at hmem
        · intro h; rcases h with h | h <;> cases h
      · intro _
        simp [WalkStatHandler, hlk, hnd]

/-- C8 witness: on a non-directory FD, WalkStat with the single component
"" reaches the backend, while the single component "x" fails
not-a-directory. -/
theorem walkStat_nondir_self_witness :
    Event.bWalkStat ∈
      (WalkStatHandler ⟨false, true⟩ (some (1, [""])) lkCtlFile none).1 ∧
    (WalkStatHandler ⟨false, true⟩ (some (1, ["x"])) lkCtlFile none).2 =
      Except.error enotdir :=
  ⟨(walkStat_nondir_self ⟨false, true⟩ 1 [""] lkCtlFile none
      ⟨false, "f", some "/", "/f"⟩ rfl rfl).1.mpr (Or.inr rfl),
   (walkStat_nondir_self ⟨false, true⟩ 1 ["x"] lkCtlFile none
      ⟨false, "f", some "/", "/f"⟩ rfl rfl).2 (by simp)⟩

/-- The uint32 the backend receives for a negated negative int32 count is
the count's absolute value, including at the minimum int32 where the Go
negation itself wraps. -/
theorem toUInt32Nat_int32Neg (n : Int) (h1 : -(2 ^ 31) ≤ n) (h2 : n < 0) :
    toUInt32Nat (int32Neg n) = (-n).toNat := by
  unfold toUInt32Nat int32Neg
  omega

/-- The uint32 the backend receives for a non-negative int32 count is the
count itself. -/
theorem toUInt32Nat_id (n : Int) (h1 : 0 ≤ n) (h2 : n < 2 ^ 31) :
    toUInt32Nat n = n.toNat := by
  unfold toUInt32Nat
  omega

/-- C9: Getdents64 on an open FD whose control FD is not a directory fails
not-a-directory; on a directory, a negative count invokes the backend
Getdent64 with seek-to-zero set and the count negated (made positive), and
a non-negative count invokes it with seek-to-zero unset and the count
unchanged. -/
theorem getdents_count_seek0 (c : Conn) (dirFD : Nat) (count : Int)
    (lk : Nat → Except Errno OpenFD) (gerr : Option Errno) (fd : OpenFD)
    (hlk : lk dirFD = Except.ok fd) (hlo : -(2 ^ 31) ≤ count) (hhi : count < 2 ^ 31) :
    (fd.controlIsDir = false →
      Getdents64Handler c (some (dirFD, count)) lk gerr =
        ([Event.lookupOpen dirFD, Event.decRef dirFD], Except.error enotdir)) ∧
    (fd.controlIsDir = true → count < 0 →
      Event.bGetdent (-count).toNat true ∈
        (Getdents64Handler c (some (dirFD, count)) lk gerr).1) ∧
    (fd.controlIsDir = true → 0 ≤ count →
      Event.bGetdent count.toNat false ∈
        (Getdents64Handler c (some (dirFD, count)) lk gerr).1) := by
  refine ⟨fun hd => ?_, fun hd hneg => ?_, fun hd hpos => ?_⟩
  · simp [Getdents64Handler, hlk, hd]
  · cases gerr <;>
      simp [Getdents64Handler, hlk, hd, hneg,
        toUInt32Nat_int32Neg count hlo hneg]
  · cases gerr <;>
      simp [Getdents64Handler, hlk, hd, not_lt.mpr hpos,
        toUInt32Nat_id count hpos hhi]

/-- C9 witness: count -5 on a directory FD produces a backend call with
seek-to-zero and count 5; count 7 produces one without seek-to-zero and
count 7. -/
theorem getdents_count_seek0_witness :
    Event.bGetdent 5 true ∈
      (Getdents64Handler ⟨false, true⟩ (some (1, -5)) lkOpenAll none).1 ∧
    Event.bGetdent 7 false ∈
      (Getdents64Handler ⟨false, true⟩ (some (1, 7)) lkOpenAll none).1 :=
  ⟨(getdents_count_seek0 ⟨false, true⟩ 1 (-5) lkOpenAll none ⟨true, true, true⟩
      rfl (by decide) (by decide)).2.1 rfl (by decide),
   (getdents_count_seek0 ⟨false, true⟩ 1 7 lkOpenAll none ⟨true, true, true⟩
      rfl (by decide) (by decide)).2.2 rfl (by decide)⟩
